import Mathlib

/-!
HC-06 Bluetooth serdev driver (`bt-dibdriver.c`): receive buffer and life cycle.

A shallow embedding of `bt-dibdriver.c`.  The module-level variables of the
driver become the record `Globals`; every driver entry point (`my_read`,
`my_write`, `my_receive_buf`, `my_probe`, `my_remove`) becomes a function on
that record.  Kernel services the driver calls (`memcpy`, `copy_to_user`,
`wait_event_interruptible`, `register_chrdev`, ...) are not part of the driver:
their answers are inputs of the embedding and the calls the driver makes are
recorded in a trace.

Machine integers are `Nat`/`Int` with explicit reduction modulo `2 ^ 64`
(`size_t`, pointers) and explicit two's-complement conversions (`int`,
`ssize_t`, `long`).
-/

namespace Hc06

/-! ## Machine integers -/

/-- One `char` of the receive buffer. -/
abbrev Byte := Fin 256

/-- Difference of two `size_t` values: unsigned, modulo `2 ^ 64`. -/
def size_t_sub (a b : Nat) : Nat := (a % 2 ^ 64 + 2 ^ 64 - b % 2 ^ 64) % 2 ^ 64

/-- Sum of two `size_t` values: unsigned, modulo `2 ^ 64`. -/
def size_t_add (a b : Nat) : Nat := (a + b) % 2 ^ 64

/-- Conversion of a `size_t` value to `int` (32 bit, two's complement). -/
def int_of_size_t (n : Nat) : Int :=
  if n % 2 ^ 32 < 2 ^ 31 then ((n % 2 ^ 32 : Nat) : Int) else ((n % 2 ^ 32 : Nat) : Int) - 2 ^ 32

/-- Conversion of a `size_t` value to `ssize_t` (64 bit, two's complement). -/
def ssize_t_of_size_t (n : Nat) : Int :=
  if n % 2 ^ 64 < 2 ^ 63 then ((n % 2 ^ 64 : Nat) : Int) else ((n % 2 ^ 64 : Nat) : Int) - 2 ^ 64

/-- Conversion of an `int` to `size_t`: sign extension, then modulo `2 ^ 64`. -/
def size_t_of_int (i : Int) : Nat := (i % 2 ^ 64).toNat

/-- Conversion of a `long` to `int`: the low 32 bits, two's complement. -/
def int_of_long (i : Int) : Int := (i + 2 ^ 31) % 2 ^ 32 - 2 ^ 31

def ERESTARTSYS : Int := 512
def EFAULT : Int := 14
def ENOMEM : Int := 12

/-! ## Module state -/

/-- The module-level variables of the driver (lines 13-20).  `my_lock` and
`read_queue` carry no data: the embedding runs one entry point at a time, so
the critical sections are atomic and the lock is not represented. -/
structure Globals where
  major_number : Int
  my_class : Nat
  my_dev : Nat
  my_serdev : Nat
  rx_buffer : List Byte
  rx_len : Nat
deriving DecidableEq

/-- The variables as the loader leaves them: static storage is zeroed. -/
def module_load : Globals where
  major_number := 0
  my_class := 0
  my_dev := 0
  my_serdev := 0
  rx_buffer := List.replicate 256 0
  rx_len := 0

/-- Outcome of running an entry point. -/
inductive Exec (α : Type) where
  /-- the call returns -/
  | ret (a : α)
  /-- the call stays asleep in `wait_event_interruptible` -/
  | sleeps
  /-- the call reads or writes outside an object -/
  | out_of_bounds
deriving DecidableEq

/-! ## Receive path -/

/-- Kernel `memcpy(dst + off, src, n)`: `none` when the `n` bytes do not lie
inside the destination object or inside the source. -/
def memcpy (dst : List Byte) (off : Nat) (src : List Byte) (n : Nat) : Option (List Byte) :=
  if off + n ≤ dst.length ∧ n ≤ src.length then
    some (dst.take off ++ src.take n ++ dst.drop (off + n))
  else none

/-- Lines 63-74.  `buf` is the memory the serdev core hands over, `size` the
byte count it announces.  The result is the new module state and the returned
`int`. -/
def my_receive_buf (g : Globals) (buf : List Byte) (size : Nat) : Exec (Globals × Int) :=
  let size := if size > size_t_sub 256 g.rx_len then size_t_sub 256 g.rx_len else size
  match memcpy g.rx_buffer g.rx_len buf size with
  | none => .out_of_bounds
  | some b =>
    .ret ({ g with rx_buffer := b, rx_len := size_t_add g.rx_len size }, int_of_size_t size)

/-- A run of arrivals: the serdev core delivers the chunks one after the other,
each with its own length as `size`. -/
def receive_all (g : Globals) : List (List Byte) → Exec Globals
  | [] => .ret g
  | d :: ds =>
    match my_receive_buf g d d.length with
    | .ret (g', _) => receive_all g' ds
    | .sleeps => .sleeps
    | .out_of_bounds => .out_of_bounds

/-! ## Read path -/

/-- Kernel `wait_event_interruptible(queue, condition)` as seen by a caller
that runs alone: `some 0` when the condition holds (a pending signal is not even
looked at), `some (-ERESTARTSYS)` when it does not hold and a signal arrives,
`none` when the caller stays asleep. -/
def wait_event_interruptible (condition signal_pending : Bool) : Option Int :=
  if condition then some 0 else if signal_pending then some (-ERESTARTSYS) else none

/-- Kernel `copy_to_user(to, from, n)` where `writable` bytes of user memory can
be written at `to`: the number of bytes NOT copied and the bytes stored in user
memory.  `none` when the `n` bytes do not lie inside the source object. -/
def copy_to_user (writable : Nat) (src : List Byte) (n : Nat) : Option (Nat × List Byte) :=
  if n ≤ src.length then some (n - min n writable, src.take (min n writable)) else none

/-- Lines 22-39.  `writable` describes the caller's buffer `buf`, `count` is the
requested size, `signal_pending` says whether a signal reaches the caller while
it waits.  The result is the new module state, the returned `ssize_t` and the
bytes stored in the caller's buffer. -/
def my_read (g : Globals) (writable : Nat) (count : Nat) (signal_pending : Bool) :
    Exec (Globals × Int × List Byte) :=
  match wait_event_interruptible (decide (g.rx_len > 0)) signal_pending with
  | none => .sleeps
  | some w =>
    if w ≠ 0 then .ret (g, -ERESTARTSYS, [])
    else
      let count := if count > g.rx_len then g.rx_len else count
      match copy_to_user writable g.rx_buffer count with
      | none => .out_of_bounds
      | some (not_copied, out) =>
        if not_copied ≠ 0 then .ret (g, -EFAULT, out)
        else .ret ({ g with rx_len := 0 }, ssize_t_of_size_t count, out)

/-! ## Write path -/

/-- Kernel `copy_from_user(to, from, n)` where the user memory at `from` holds
`src`: the number of bytes NOT copied and the bytes copied. -/
def copy_from_user (src : List Byte) (n : Nat) : Nat × List Byte :=
  (n - min n src.length, src.take n)

/-- Lines 41-55.  `serdev_device_write_buf` is the transport: given the bytes
and the count it answers with an `int`, the number of bytes it took or a
negative errno.  `kmalloc_ok` says whether the allocation succeeds, `buf` is the
caller's memory.  The result is the returned `ssize_t`.  The conditional
`ret < 0 ? ret : count` has type `size_t`, so `ret` is converted to `size_t`
and the whole value back to `ssize_t`. -/
def my_write (serdev_device_write_buf : List Byte → Nat → Int) (kmalloc_ok : Bool)
    (buf : List Byte) (count : Nat) : Int :=
  if !kmalloc_ok then -ENOMEM
  else
    let (not_copied, kbuf) := copy_from_user buf count
    if not_copied ≠ 0 then -EFAULT
    else
      let ret := serdev_device_write_buf kbuf count
      ssize_t_of_size_t (if ret < 0 then size_t_of_int ret else count)

/-! ## Attach and detach -/

/-- Kernel `IS_ERR(ptr)`: the top 4095 addresses encode errors. -/
def IS_ERR (ptr : Nat) : Bool := decide (2 ^ 64 - 4095 ≤ ptr)

/-- Kernel `PTR_ERR(ptr)`: the pointer read as a `long`. -/
def PTR_ERR (ptr : Nat) : Int :=
  if ptr % 2 ^ 64 < 2 ^ 63 then ((ptr % 2 ^ 64 : Nat) : Int) else ((ptr % 2 ^ 64 : Nat) : Int) - 2 ^ 64

/-- Kernel `ERR_PTR(error)`: the pointer that encodes an error. -/
def ERR_PTR (error : Int) : Nat := (error % 2 ^ 64).toNat

/-- Kernel `MKDEV(ma, mi)`: `(ma << 20) | mi` in 32 bits. -/
def MKDEV (ma : Int) (mi : Nat) : Nat := (((ma % 2 ^ 32).toNat * 2 ^ 20) % 2 ^ 32) ||| mi

/-- The answers of the kernel to the calls of `my_probe`. -/
structure ProbeEnv where
  /-- `serdev_device_open`: 0 or a negative errno -/
  open_ret : Int
  /-- `serdev_device_set_baudrate`: the speed really set -/
  baudrate_ret : Nat
  /-- `serdev_device_set_parity`: 0 or a negative errno -/
  parity_ret : Int
  /-- `register_chrdev`: the major number or a negative errno -/
  chrdev_ret : Int
  /-- `class_create`: a pointer or an `ERR_PTR` -/
  class_ret : Nat
  /-- `device_create`: a pointer or an `ERR_PTR` -/
  device_ret : Nat
deriving DecidableEq

/-- Kernel `enum serdev_parity`. -/
inductive Parity where
  | SERDEV_PARITY_NONE
  | SERDEV_PARITY_EVEN
  | SERDEV_PARITY_ODD
deriving DecidableEq

/-- A call of the driver into the kernel, with its arguments and its answer. -/
inductive Call where
  | mutex_init
  | init_waitqueue_head
  | serdev_device_set_client_ops (serdev : Nat)
  | serdev_device_open (serdev : Nat) (answer : Int)
  | serdev_device_set_baudrate (serdev : Nat) (speed : Nat) (answer : Nat)
  | serdev_device_set_flow_control (serdev : Nat) (enable : Bool)
  | serdev_device_set_parity (serdev : Nat) (parity : Parity) (answer : Int)
  | register_chrdev (major : Nat) (answer : Int)
  | class_create (answer : Nat)
  | device_create (cls : Nat) (devt : Nat) (answer : Nat)
  | device_destroy (cls : Nat) (devt : Nat)
  | class_unregister (cls : Nat)
  | class_destroy (cls : Nat)
  | unregister_chrdev (major : Int)
  | serdev_device_close (serdev : Nat)
deriving DecidableEq

/-- Lines 81-122.  The result is the new module state, the returned `int` and
the calls made, in order. -/
def my_probe (g : Globals) (serdev : Nat) (env : ProbeEnv) : Globals × Int × List Call :=
  let g := { g with my_serdev := serdev }
  let t := [Call.mutex_init, .init_waitqueue_head, .serdev_device_set_client_ops serdev,
            .serdev_device_open serdev env.open_ret]
  let ret := env.open_ret
  if ret ≠ 0 then (g, ret, t)
  else
    let t := t ++ [.serdev_device_set_baudrate serdev 9600 env.baudrate_ret,
                   .serdev_device_set_flow_control serdev false,
                   .serdev_device_set_parity serdev .SERDEV_PARITY_NONE env.parity_ret,
                   .register_chrdev 0 env.chrdev_ret]
    let g := { g with major_number := env.chrdev_ret }
    if g.major_number < 0 then
      (g, g.major_number, t ++ [.serdev_device_close serdev])
    else
      let t := t ++ [.class_create env.class_ret]
      let g := { g with my_class := env.class_ret }
      if IS_ERR g.my_class then
        (g, int_of_long (PTR_ERR g.my_class),
          t ++ [.unregister_chrdev g.major_number, .serdev_device_close g.my_serdev])
      else
        let t := t ++ [.device_create g.my_class (MKDEV g.major_number 0) env.device_ret]
        let g := { g with my_dev := env.device_ret }
        if IS_ERR g.my_dev then
          (g, int_of_long (PTR_ERR g.my_dev),
            t ++ [.class_destroy g.my_class, .unregister_chrdev g.major_number,
                  .serdev_device_close g.my_serdev])
        else (g, 0, t)

/-- Lines 124-132.  The result is the module state and the calls made. -/
def my_remove (g : Globals) (serdev : Nat) : Globals × List Call :=
  (g, [.device_destroy g.my_class (MKDEV g.major_number 0), .class_unregister g.my_class,
       .class_destroy g.my_class, .unregister_chrdev g.major_number,
       .serdev_device_close serdev])

/-- What is alive on the kernel side. -/
structure Resources where
  /-- the transport is open -/
  transport : Option Nat
  /-- the character device registration, by major number -/
  chrdev : Option Int
  /-- the device class -/
  cls : Option Nat
  /-- the device node, by class and device number -/
  device : Option (Nat × Nat)
  /-- number of releases of something that was not alive -/
  stray : Nat
deriving DecidableEq

/-- Nothing alive, nothing released wrongly. -/
def Resources.empty : Resources := ⟨none, none, none, none, 0⟩

/-- Effect of one call on the resources: a successful creation makes its
object alive, a release of a live object removes it, a release of anything else
is counted in `stray`. -/
def Resources.step (r : Resources) : Call → Resources
  | .serdev_device_open sd a => if a = 0 then { r with transport := some sd } else r
  | .register_chrdev _ a => if a < 0 then r else { r with chrdev := some a }
  | .class_create a => if IS_ERR a then r else { r with cls := some a }
  | .device_create c d a => if IS_ERR a then r else { r with device := some (c, d) }
  | .device_destroy c d =>
    if r.device = some (c, d) then { r with device := none }
    else { r with stray := r.stray + 1 }
  | .class_unregister c =>
    if r.cls = some c then { r with cls := none } else { r with stray := r.stray + 1 }
  | .class_destroy c =>
    if r.cls = some c then { r with cls := none } else { r with stray := r.stray + 1 }
  | .unregister_chrdev m =>
    if r.chrdev = some m then { r with chrdev := none }
    else { r with stray := r.stray + 1 }
  | .serdev_device_close sd =>
    if r.transport = some sd then { r with transport := none }
    else { r with stray := r.stray + 1 }
  | _ => r

/-- The resources after a sequence of calls. -/
def Resources.after (r : Resources) (t : List Call) : Resources := t.foldl Resources.step r

/-- The line configuration asked for at lines 95-97 did not take effect: the
speed set is not 9600 or setting the parity failed. -/
def config_failed (env : ProbeEnv) : Bool := decide (env.baudrate_ret ≠ 9600 ∨ env.parity_ret ≠ 0)

/-- The receive buffer is well formed: the storage is the 256-byte array
`rx_buffer` and `rx_len` does not exceed its size. -/
def buffer_ok (g : Globals) : Prop := g.rx_len ≤ 256 ∧ g.rx_buffer.length = 256

instance (g : Globals) : Decidable (buffer_ok g) := by
  unfold buffer_ok
  exact inferInstance

/-! ## Arithmetic facts used below -/

theorem size_t_sub_of_le (n : Nat) (h : n ≤ 256) : size_t_sub 256 n = 256 - n := by
  unfold size_t_sub
  omega

theorem size_t_add_of_le (a b : Nat) (h : a + b ≤ 256) : size_t_add a b = a + b := by
  unfold size_t_add
  omega

theorem int_of_size_t_of_le (n : Nat) (h : n ≤ 256) : int_of_size_t n = (n : Int) := by
  unfold int_of_size_t
  have h1 : n % 2 ^ 32 = n := Nat.mod_eq_of_lt (by omega)
  rw [h1, if_pos (by omega)]

theorem ssize_t_of_size_t_of_lt (n : Nat) (h : n < 2 ^ 63) : ssize_t_of_size_t n = (n : Int) := by
  unfold ssize_t_of_size_t
  have h1 : n % 2 ^ 64 = n := Nat.mod_eq_of_lt (by omega)
  rw [h1, if_pos h]

/-! ## The arrival callback -/

theorem my_receive_buf_eq (g : Globals) (data : List Byte)
    (hlen : g.rx_len ≤ 256) (hbuf : g.rx_buffer.length = 256) :
    my_receive_buf g data data.length
      = .ret ({ g with
                rx_buffer := g.rx_buffer.take g.rx_len
                  ++ data.take (min data.length (256 - g.rx_len))
                  ++ g.rx_buffer.drop (g.rx_len + min data.length (256 - g.rx_len)),
                rx_len := g.rx_len + min data.length (256 - g.rx_len) },
              ((min data.length (256 - g.rx_len) : Nat) : Int)) := by
  unfold my_receive_buf
  rw [size_t_sub_of_le _ hlen]
  have hk : (if data.length > 256 - g.rx_len then 256 - g.rx_len else data.length)
      = min data.length (256 - g.rx_len) := by
    split <;> omega
  simp only [hk]
  have hk1 : min data.length (256 - g.rx_len) ≤ data.length := Nat.min_le_left _ _
  have hk2 : g.rx_len + min data.length (256 - g.rx_len) ≤ 256 := by omega
  have hm : memcpy g.rx_buffer g.rx_len data (min data.length (256 - g.rx_len))
      = some (g.rx_buffer.take g.rx_len ++ data.take (min data.length (256 - g.rx_len))
          ++ g.rx_buffer.drop (g.rx_len + min data.length (256 - g.rx_len))) := by
    unfold memcpy
    rw [if_pos ⟨by omega, hk1⟩]
  rw [hm]
  simp only []
  rw [size_t_add_of_le _ _ hk2, int_of_size_t_of_le _ (by omega)]

/-- C1: on a buffer with `rx_len ≤ 256`, `my_receive_buf` called with `data`
returns `k = min (len data) (256 - rx_len)`, sets `rx_len` to `rx_len + k`,
stores the first `k` bytes of `data` at offsets `rx_len .. rx_len + k - 1`,
leaves the first `rx_len` bytes of the storage as they were and keeps the
storage 256 bytes long; when `data` is longer than the room left, exactly
`256 - rx_len` bytes are taken and the new `rx_len` is 256. -/
theorem my_receive_buf_accepts (g : Globals) (data : List Byte)
    (hlen : g.rx_len ≤ 256) (hbuf : g.rx_buffer.length = 256) :
    ∃ g', my_receive_buf g data data.length
        = .ret (g', ((min data.length (256 - g.rx_len) : Nat) : Int)) ∧
      g'.rx_len = g.rx_len + min data.length (256 - g.rx_len) ∧
      (g'.rx_buffer.drop g.rx_len).take (min data.length (256 - g.rx_len))
        = data.take (min data.length (256 - g.rx_len)) ∧
      g'.rx_buffer.take g.rx_len = g.rx_buffer.take g.rx_len ∧
      g'.rx_buffer.length = 256 ∧
      (256 - g.rx_len < data.length →
        min data.length (256 - g.rx_len) = 256 - g.rx_len ∧ g'.rx_len = 256) := by
  refine ⟨_, my_receive_buf_eq g data hlen hbuf, rfl, ?_, ?_, ?_, ?_⟩
  · have h1 : (List.take g.rx_len g.rx_buffer).length = g.rx_len := by
      rw [List.length_take]; omega
    have h2 : (List.take (min data.length (256 - g.rx_len)) data).length
        = min data.length (256 - g.rx_len) := by
      rw [List.length_take]; omega
    simp only [List.append_assoc]
    rw [List.drop_left' h1, List.take_left' h2]
  · have h1 : (List.take g.rx_len g.rx_buffer).length = g.rx_len := by
      rw [List.length_take]; omega
    simp only [List.append_assoc]
    rw [List.take_left' h1]
  · simp only [List.length_append, List.length_take, List.length_drop]
    omega
  · intro h
    refine ⟨by omega, ?_⟩
    show g.rx_len + min data.length (256 - g.rx_len) = 256
    omega

/-- Witness for C1: 200 bytes arrive on the empty buffer, then 100 more; the
second call returns 56 and the buffer is full. -/
theorem my_receive_buf_accepts_witness :
    ∃ g1 g2, my_receive_buf module_load (List.replicate 200 1) 200 = .ret (g1, 200) ∧
      my_receive_buf g1 (List.replicate 100 2) 100 = .ret (g2, 56) ∧ g2.rx_len = 256 := by
  have e1 : (List.replicate 200 (1 : Byte)).length = 200 := List.length_replicate _ _
  have e2 : (List.replicate 100 (2 : Byte)).length = 100 := List.length_replicate _ _
  have e0 : module_load.rx_buffer.length = 256 := List.length_replicate _ _
  obtain ⟨g1, h1, h2, -, -, h5, -⟩ :=
    my_receive_buf_accepts module_load (List.replicate 200 1) (by decide) e0
  have hl : g1.rx_len = 200 := by
    rw [h2, e1]
    decide
  obtain ⟨g2, k1, k2, -, -, -, -⟩ :=
    my_receive_buf_accepts g1 (List.replicate 100 2) (by omega) h5
  have c1 : ((min 200 (256 - module_load.rx_len) : Nat) : Int) = 200 := by decide
  have c2 : ((min 100 (256 - 200) : Nat) : Int) = 56 := by decide
  rw [e1, c1] at h1
  rw [e2, hl, c2] at k1
  rw [e2, hl] at k2
  exact ⟨g1, g2, h1, k1, k2⟩

/-! ## The read entry point -/

theorem my_read_of_pos (g : Globals) (writable count : Nat) (signal_pending : Bool)
    (hpos : 0 < g.rx_len) (hlen : g.rx_len ≤ 256) (hbuf : g.rx_buffer.length = 256) :
    my_read g writable count signal_pending
      = if min count g.rx_len ≤ writable then
          .ret ({ g with rx_len := 0 }, ((min count g.rx_len : Nat) : Int),
                g.rx_buffer.take (min count g.rx_len))
        else .ret (g, -EFAULT, g.rx_buffer.take writable) := by
  unfold my_read wait_event_interruptible
  have hk : (if count > g.rx_len then g.rx_len else count) = min count g.rx_len := by
    split <;> omega
  simp only [hk, gt_iff_lt, hpos, decide_True, if_true, ne_eq, not_true_eq_false, if_false]
  unfold copy_to_user
  rw [if_pos (by omega)]
  simp only []
  by_cases hw : min count g.rx_len ≤ writable
  · have h0 : min count g.rx_len - min (min count g.rx_len) writable = 0 := by omega
    have h1 : min (min count g.rx_len) writable = min count g.rx_len := by omega
    rw [if_pos hw, h0, h1, ssize_t_of_size_t_of_lt _ (by omega)]
    exact if_neg (fun h => h rfl)
  · have h1 : min (min count g.rx_len) writable = writable := by omega
    rw [if_neg hw, h1]
    exact if_pos (by omega)

/-- C5: on a buffer with `0 < rx_len ≤ 256`, for every `count`, a `my_read`
whose copy to the caller succeeds (the caller's buffer takes the
`min count rx_len` bytes) returns `min count rx_len`, and the bytes delivered
are the first `min count rx_len` bytes of the storage, in order.  With
`rx_len > 0` the wait returns at once, whether a signal is pending or not. -/
theorem my_read_returns_front (g : Globals) (writable count : Nat) (signal_pending : Bool)
    (hpos : 0 < g.rx_len) (hlen : g.rx_len ≤ 256) (hbuf : g.rx_buffer.length = 256)
    (hcopy : min count g.rx_len ≤ writable) :
    ∃ g', my_read g writable count signal_pending
        = .ret (g', ((min count g.rx_len : Nat) : Int), g.rx_buffer.take (min count g.rx_len)) ∧
      (g.rx_buffer.take (min count g.rx_len)).length = min count g.rx_len := by
  refine ⟨{ g with rx_len := 0 }, ?_, ?_⟩
  · rw [my_read_of_pos g writable count signal_pending hpos hlen hbuf, if_pos hcopy]
  · rw [List.length_take]
    omega

/-- Witness for C5: five bytes are buffered and three are asked for. -/
theorem my_read_returns_front_witness :
    ∃ g', my_read { module_load with rx_buffer := [1, 2, 3, 4, 5] ++ List.replicate 251 0,
                                     rx_len := 5 } 3 3 false
        = .ret (g', 3, [1, 2, 3]) := by
  obtain ⟨g', h, -⟩ :=
    my_read_returns_front { module_load with rx_buffer := [1, 2, 3, 4, 5] ++ List.replicate 251 0,
                                             rx_len := 5 } 3 3 false
      (by decide) (by decide) (by rw [List.length_append, List.length_replicate]; rfl) (by decide)
  exact ⟨g', h⟩

/-- C4, counterexample: five bytes are buffered, the caller asks for five and
its buffer cannot be written.  `my_read` returns `-EFAULT` and `rx_len` is
still 5. -/
theorem my_read_fault_keeps_length :
    my_read { module_load with rx_len := 5 } 0 5 false
        = .ret ({ module_load with rx_len := 5 }, -EFAULT, []) ∧
      ({ module_load with rx_len := 5 } : Globals).rx_len ≠ 0 := by
  have h := my_read_of_pos { module_load with rx_len := 5 } 0 5 false
    (by decide) (by decide) (List.length_replicate _ _)
  rw [if_neg (by decide)] at h
  exact ⟨h, by decide⟩

/-- C4, amended: on a buffer with `0 < rx_len ≤ 256`, for every `count`
(smaller than `rx_len` and 0 included), a `my_read` whose copy to the caller
succeeds returns with `rx_len = 0`, and nothing is kept for a later read: the
next `my_read` without a new arrival sleeps.  When the copy fails, `my_read`
returns `-EFAULT` and the module state is as before. -/
theorem my_read_resets (g : Globals) (writable count : Nat) (signal_pending : Bool)
    (hpos : 0 < g.rx_len) (hlen : g.rx_len ≤ 256) (hbuf : g.rx_buffer.length = 256) :
    (min count g.rx_len ≤ writable →
      ∃ g' r out, my_read g writable count signal_pending = .ret (g', r, out) ∧
        g'.rx_len = 0 ∧ 0 ≤ r ∧
        ∀ writable2 count2, my_read g' writable2 count2 false = .sleeps) ∧
    (writable < min count g.rx_len →
      ∃ out, my_read g writable count signal_pending = .ret (g, -EFAULT, out)) := by
  rw [my_read_of_pos g writable count signal_pending hpos hlen hbuf]
  constructor
  · intro h
    rw [if_pos h]
    refine ⟨_, _, _, rfl, rfl, Int.ofNat_nonneg _, ?_⟩
    intro w2 c2
    rfl
  · intro h
    rw [if_neg (by omega)]
    exact ⟨_, rfl⟩

/-- Witness for C4 (amended): five bytes buffered, two asked for, the copy
succeeds. -/
theorem my_read_resets_witness :
    ∃ g' r out, my_read { module_load with rx_len := 5 } 2 2 false = .ret (g', r, out) ∧
      g'.rx_len = 0 ∧ 0 ≤ r ∧
      ∀ writable2 count2, my_read g' writable2 count2 false = .sleeps :=
  (my_read_resets { module_load with rx_len := 5 } 2 2 false
    (by decide) (by decide) (List.length_replicate _ _)).1 (by decide)

/-- C9: when the wait of `my_read` is interrupted (`wait_event_interruptible`
answers `-ERESTARTSYS`), `my_read` returns `-ERESTARTSYS`, delivers no byte,
and the module state, `rx_len` and every byte of `rx_buffer` included, is the
one before the call. -/
theorem my_read_interrupted (g : Globals) (writable count : Nat) (signal_pending : Bool)
    (hint : wait_event_interruptible (decide (g.rx_len > 0)) signal_pending
      = some (-ERESTARTSYS)) :
    my_read g writable count signal_pending = .ret (g, -ERESTARTSYS, []) := by
  unfold my_read
  rw [hint]
  simp [ERESTARTSYS]

/-- Witness for C9: a signal reaches a reader that waits on the empty buffer. -/
theorem my_read_interrupted_witness :
    my_read module_load 256 256 true = .ret (module_load, -ERESTARTSYS, []) :=
  my_read_interrupted module_load 256 256 true (by decide)

/-! ## The bound on `rx_len` -/

theorem my_read_of_zero (g : Globals) (writable count : Nat) (signal_pending : Bool)
    (hz : g.rx_len = 0) :
    my_read g writable count signal_pending
      = if signal_pending then .ret (g, -ERESTARTSYS, []) else .sleeps := by
  unfold my_read wait_event_interruptible
  rw [hz]
  cases signal_pending <;> simp [ERESTARTSYS]

/-- C8: `rx_len ≤ 256` (with the storage 256 bytes long) holds when the module
is loaded, and every `my_receive_buf`, whatever the size of its input, and
every `my_read`, whatever the requested count and however it ends, started in a
state with the bound ends in a state with the bound.  In `my_receive_buf` the
unsigned difference `sizeof(rx_buffer) - rx_len` equals the difference of the
integers (no wrap), the call returns (no write outside the storage) and the
bytes copied end at offset 256 at most.  `my_read` never reads outside the
storage: it returns or sleeps. -/
theorem rx_len_bounded :
    buffer_ok module_load ∧
    (∀ (g : Globals) (data : List Byte), buffer_ok g →
      ((size_t_sub 256 g.rx_len : Nat) : Int) = 256 - (g.rx_len : Int) ∧
      ∃ (g' : Globals) (k : Nat), my_receive_buf g data data.length = .ret (g', (k : Int)) ∧
        g.rx_len + k ≤ 256 ∧ g'.rx_len = g.rx_len + k ∧ buffer_ok g') ∧
    (∀ (g : Globals) (writable count : Nat) (signal_pending : Bool), buffer_ok g →
      my_read g writable count signal_pending = .sleeps ∨
      ∃ g' r out, my_read g writable count signal_pending = .ret (g', r, out) ∧
        buffer_ok g') := by
  refine ⟨⟨by decide, List.length_replicate _ _⟩, ?_, ?_⟩
  · rintro g data ⟨hlen, hbuf⟩
    refine ⟨?_, ?_⟩
    · rw [size_t_sub_of_le _ hlen]
      omega
    · refine ⟨_, min data.length (256 - g.rx_len), my_receive_buf_eq g data hlen hbuf,
        by omega, rfl, ?_, ?_⟩
      · show g.rx_len + min data.length (256 - g.rx_len) ≤ 256
        omega
      · show (g.rx_buffer.take g.rx_len ++ data.take (min data.length (256 - g.rx_len))
          ++ g.rx_buffer.drop (g.rx_len + min data.length (256 - g.rx_len))).length = 256
        simp only [List.length_append, List.length_take, List.length_drop]
        omega
  · rintro g writable count signal_pending ⟨hlen, hbuf⟩
    rcases Nat.eq_zero_or_pos g.rx_len with hz | hpos
    · rw [my_read_of_zero g writable count signal_pending hz]
      cases signal_pending
      · exact Or.inl rfl
      · exact Or.inr ⟨g, _, _, rfl, hlen, hbuf⟩
    · right
      rw [my_read_of_pos g writable count signal_pending hpos hlen hbuf]
      by_cases hw : min count g.rx_len ≤ writable
      · rw [if_pos hw]
        exact ⟨_, _, _, rfl, Nat.zero_le _, hbuf⟩
      · rw [if_neg hw]
        exact ⟨_, _, _, rfl, hlen, hbuf⟩

/-- Witness for C8: ten bytes arrive on a buffer that holds 250. -/
theorem rx_len_bounded_witness :
    ∃ (g' : Globals) (k : Nat),
      my_receive_buf { module_load with rx_len := 250 } (List.replicate 10 9)
          (List.replicate 10 9).length = .ret (g', (k : Int)) ∧
        ({ module_load with rx_len := 250 } : Globals).rx_len + k ≤ 256 ∧
        g'.rx_len = ({ module_load with rx_len := 250 } : Globals).rx_len + k ∧
        buffer_ok g' := by
  have hok : buffer_ok { module_load with rx_len := 250 } :=
    ⟨by decide, List.length_replicate _ _⟩
  exact (rx_len_bounded.2.1 { module_load with rx_len := 250 } (List.replicate 10 9) hok).2

/-! ## Arrivals followed by a read -/

theorem receive_all_fits (chunks : List (List Byte)) :
    ∀ (g : Globals), g.rx_len ≤ 256 → g.rx_buffer.length = 256 →
      g.rx_len + chunks.flatten.length ≤ 256 →
      ∃ g', receive_all g chunks = .ret g' ∧
        g'.rx_len = g.rx_len + chunks.flatten.length ∧
        g'.rx_buffer.length = 256 ∧
        g'.rx_buffer.take g'.rx_len = g.rx_buffer.take g.rx_len ++ chunks.flatten := by
  induction chunks with
  | nil =>
    intro g _ hbuf _
    exact ⟨g, rfl, by simp, hbuf, by simp⟩
  | cons d ds ih =>
    intro g hlen hbuf htot
    rw [List.flatten_cons, List.length_append] at htot
    have hmin : min d.length (256 - g.rx_len) = d.length := by omega
    have hstep := my_receive_buf_eq g d hlen hbuf
    rw [hmin, List.take_length] at hstep
    have hlen1 : (List.take g.rx_len g.rx_buffer).length = g.rx_len := by
      rw [List.length_take]; omega
    have hbuf1 : (g.rx_buffer.take g.rx_len ++ d
        ++ g.rx_buffer.drop (g.rx_len + d.length)).length = 256 := by
      simp only [List.length_append, List.length_take, List.length_drop]
      omega
    obtain ⟨g', h1, h2, h3, h4⟩ := ih
      { g with rx_buffer := g.rx_buffer.take g.rx_len ++ d
                 ++ g.rx_buffer.drop (g.rx_len + d.length),
               rx_len := g.rx_len + d.length }
      (by show g.rx_len + d.length ≤ 256; omega) hbuf1
      (by show g.rx_len + d.length + ds.flatten.length ≤ 256; omega)
    refine ⟨g', ?_, ?_, h3, ?_⟩
    · simp only [receive_all]
      rw [hstep]
      exact h1
    · rw [h2, List.flatten_cons, List.length_append]
      show g.rx_len + d.length + ds.flatten.length = _
      omega
    · rw [h4, List.flatten_cons]
      show List.take (g.rx_len + d.length) (g.rx_buffer.take g.rx_len ++ d
        ++ g.rx_buffer.drop (g.rx_len + d.length)) ++ ds.flatten = _
      have hl : (g.rx_buffer.take g.rx_len ++ d).length = g.rx_len + d.length := by
        rw [List.length_append, hlen1]
      rw [List.take_left' hl, List.append_assoc]

/-- C2: from an empty buffer, after any sequence of arrivals whose sizes add up
to `total` with `1 ≤ total ≤ 256` (so the sequence is not empty), a `my_read` that asks for at
least `total` bytes and whose copy succeeds (the caller's buffer takes `total`
bytes) returns `total` and delivers the arrived chunks joined in arrival
order. -/
theorem read_after_arrivals (g : Globals) (chunks : List (List Byte))
    (writable count : Nat) (signal_pending : Bool)
    (hempty : g.rx_len = 0) (hbuf : g.rx_buffer.length = 256)
    (hpos : 1 ≤ (chunks.map List.length).sum) (hfit : (chunks.map List.length).sum ≤ 256)
    (hcount : (chunks.map List.length).sum ≤ count)
    (hcopy : (chunks.map List.length).sum ≤ writable) :
    ∃ g1 g2, receive_all g chunks = .ret g1 ∧
      my_read g1 writable count signal_pending
        = .ret (g2, (((chunks.map List.length).sum : Nat) : Int), chunks.flatten) := by
  rw [← List.length_flatten] at hpos hfit hcount hcopy ⊢
  obtain ⟨g1, h1, h2, h3, h4⟩ := receive_all_fits chunks g (by omega) hbuf (by omega)
  rw [hempty] at h2 h4
  simp only [Nat.zero_add, List.take_zero, List.nil_append] at h2 h4
  have hmin : min count g1.rx_len = chunks.flatten.length := by omega
  refine ⟨g1, { g1 with rx_len := 0 }, h1, ?_⟩
  rw [my_read_of_pos g1 writable count signal_pending (by omega) (by omega) h3,
    if_pos (by omega), hmin, ← h2, h4]

/-- Witness for C2: ten bytes arrive in two chunks, then 256 bytes are asked
for. -/
theorem read_after_arrivals_witness :
    ∃ g1 g2, receive_all module_load [[1, 2, 3, 4], [5, 6, 7, 8, 9, 10]] = .ret g1 ∧
      my_read g1 256 256 false = .ret (g2, 10, [1, 2, 3, 4, 5, 6, 7, 8, 9, 10]) :=
  read_after_arrivals module_load [[1, 2, 3, 4], [5, 6, 7, 8, 9, 10]] 256 256 false
    rfl (List.length_replicate _ _) (by decide) (by decide) (by decide) (by decide)

/-! ## The write entry point -/

/-- C3, counterexample: 50 bytes are written and the transport takes 30;
`my_write` returns 50, not 30. -/
theorem my_write_reports_count :
    my_write (fun _ _ => 30) true (List.replicate 50 0) 50 = 50 ∧
      my_write (fun _ _ => 30) true (List.replicate 50 0) 50 ≠ 30 := by
  decide

/-- C3, amended: with the allocation and the copy from the caller succeeding,
whenever the transport answers a non-negative count `my_write` returns the
size of the request, `count`, whatever part of it the transport took; when
the transport answers an error (a negative `int`), `my_write` returns that
error unchanged.  The size is below `2 ^ 63`, as every `write` size is, and the
answer of the transport is an `int`. -/
theorem my_write_returns (serdev_device_write_buf : List Byte → Nat → Int) (data : List Byte)
    (hsize : data.length < 2 ^ 63)
    (hint : -2 ^ 31 ≤ serdev_device_write_buf data data.length) :
    (0 ≤ serdev_device_write_buf data data.length →
      my_write serdev_device_write_buf true data data.length = (data.length : Int)) ∧
    (serdev_device_write_buf data data.length < 0 →
      my_write serdev_device_write_buf true data data.length
        = serdev_device_write_buf data data.length) := by
  unfold my_write copy_from_user
  simp only [Bool.not_true, Bool.false_eq_true, if_false, Nat.min_self, Nat.sub_self,
    List.take_length, ne_eq, not_true_eq_false]
  constructor
  · intro h
    rw [if_neg (by omega), ssize_t_of_size_t_of_lt _ hsize]
  · intro h
    rw [if_pos h]
    unfold ssize_t_of_size_t size_t_of_int
    split <;> omega

/-- Witness for C3 (amended): 50 bytes, the transport takes 30, `my_write`
returns 50; the transport fails with `-EIO`, `my_write` returns `-EIO`. -/
theorem my_write_returns_witness :
    my_write (fun _ _ => 30) true (List.replicate 50 0) (List.replicate 50 0).length
        = ((List.replicate 50 (0 : Byte)).length : Int) ∧
      my_write (fun _ _ => -5) true (List.replicate 50 0) (List.replicate 50 0).length = -5 :=
  ⟨(my_write_returns (fun _ _ => 30) (List.replicate 50 0)
      (by rw [List.length_replicate]; decide) (by decide)).1 (by decide),
   (my_write_returns (fun _ _ => -5) (List.replicate 50 0)
      (by rw [List.length_replicate]; decide) (by decide)).2 (by decide)⟩

/-! ## Attach and detach -/

theorem IS_ERR_ERR_PTR (e : Int) (h1 : -4095 ≤ e) (h2 : e < 0) : IS_ERR (ERR_PTR e) = true := by
  unfold IS_ERR ERR_PTR
  rw [decide_eq_true_eq]
  omega

theorem PTR_ERR_ERR_PTR (e : Int) (h1 : -4095 ≤ e) (h2 : e < 0) :
    int_of_long (PTR_ERR (ERR_PTR e)) = e := by
  unfold int_of_long PTR_ERR ERR_PTR
  split <;> omega

/-- C10: with the transport opened, when `register_chrdev`, `class_create` or
`device_create` fails, `my_probe` returns the error of that step, and the calls
it has made end with the releases of what was created, newest first
(`class_destroy`, `unregister_chrdev`) and `serdev_device_close` last; after
them nothing is alive and no release hit something that was not alive. -/
theorem my_probe_unwinds (g : Globals) (serdev : Nat) (env : ProbeEnv)
    (hopen : env.open_ret = 0) :
    (env.chrdev_ret < 0 →
      (my_probe g serdev env).2.1 = env.chrdev_ret ∧
      (my_probe g serdev env).2.2
        = [.mutex_init, .init_waitqueue_head, .serdev_device_set_client_ops serdev,
           .serdev_device_open serdev 0,
           .serdev_device_set_baudrate serdev 9600 env.baudrate_ret,
           .serdev_device_set_flow_control serdev false,
           .serdev_device_set_parity serdev .SERDEV_PARITY_NONE env.parity_ret,
           .register_chrdev 0 env.chrdev_ret,
           .serdev_device_close serdev] ∧
      Resources.after .empty (my_probe g serdev env).2.2 = .empty) ∧
    (0 ≤ env.chrdev_ret → ∀ e : Int, -4095 ≤ e → e < 0 → env.class_ret = ERR_PTR e →
      (my_probe g serdev env).2.1 = e ∧
      (my_probe g serdev env).2.2
        = [.mutex_init, .init_waitqueue_head, .serdev_device_set_client_ops serdev,
           .serdev_device_open serdev 0,
           .serdev_device_set_baudrate serdev 9600 env.baudrate_ret,
           .serdev_device_set_flow_control serdev false,
           .serdev_device_set_parity serdev .SERDEV_PARITY_NONE env.parity_ret,
           .register_chrdev 0 env.chrdev_ret,
           .class_create env.class_ret,
           .unregister_chrdev env.chrdev_ret,
           .serdev_device_close serdev] ∧
      Resources.after .empty (my_probe g serdev env).2.2 = .empty) ∧
    (0 ≤ env.chrdev_ret → IS_ERR env.class_ret = false →
      ∀ e : Int, -4095 ≤ e → e < 0 → env.device_ret = ERR_PTR e →
      (my_probe g serdev env).2.1 = e ∧
      (my_probe g serdev env).2.2
        = [.mutex_init, .init_waitqueue_head, .serdev_device_set_client_ops serdev,
           .serdev_device_open serdev 0,
           .serdev_device_set_baudrate serdev 9600 env.baudrate_ret,
           .serdev_device_set_flow_control serdev false,
           .serdev_device_set_parity serdev .SERDEV_PARITY_NONE env.parity_ret,
           .register_chrdev 0 env.chrdev_ret,
           .class_create env.class_ret,
           .device_create env.class_ret (MKDEV env.chrdev_ret 0) env.device_ret,
           .class_destroy env.class_ret,
           .unregister_chrdev env.chrdev_ret,
           .serdev_device_close serdev] ∧
      Resources.after .empty (my_probe g serdev env).2.2 = .empty) := by
  refine ⟨?_, ?_, ?_⟩
  · intro hreg
    have hp : my_probe g serdev env
        = ({ g with my_serdev := serdev, major_number := env.chrdev_ret }, env.chrdev_ret,
           [.mutex_init, .init_waitqueue_head, .serdev_device_set_client_ops serdev,
            .serdev_device_open serdev 0,
            .serdev_device_set_baudrate serdev 9600 env.baudrate_ret,
            .serdev_device_set_flow_control serdev false,
            .serdev_device_set_parity serdev .SERDEV_PARITY_NONE env.parity_ret,
            .register_chrdev 0 env.chrdev_ret,
            .serdev_device_close serdev]) := by
      unfold my_probe
      simp [hopen, hreg]
    rw [hp]
    refine ⟨rfl, rfl, ?_⟩
    simp [Resources.after, Resources.step, Resources.empty, hreg]
  · intro hreg e he1 he2 hcls
    have hreg' : ¬ env.chrdev_ret < 0 := by omega
    have hp : my_probe g serdev env
        = ({ g with my_serdev := serdev, major_number := env.chrdev_ret,
                    my_class := env.class_ret }, e,
           [.mutex_init, .init_waitqueue_head, .serdev_device_set_client_ops serdev,
            .serdev_device_open serdev 0,
            .serdev_device_set_baudrate serdev 9600 env.baudrate_ret,
            .serdev_device_set_flow_control serdev false,
            .serdev_device_set_parity serdev .SERDEV_PARITY_NONE env.parity_ret,
            .register_chrdev 0 env.chrdev_ret,
            .class_create env.class_ret,
            .unregister_chrdev env.chrdev_ret,
            .serdev_device_close serdev]) := by
      unfold my_probe
      simp [hopen, hreg', hcls, IS_ERR_ERR_PTR e he1 he2, PTR_ERR_ERR_PTR e he1 he2]
    rw [hp]
    refine ⟨rfl, rfl, ?_⟩
    simp [Resources.after, Resources.step, Resources.empty, hreg', hcls,
      IS_ERR_ERR_PTR e he1 he2]
  · intro hreg hclass e he1 he2 hdev
    have hreg' : ¬ env.chrdev_ret < 0 := by omega
    have hp : my_probe g serdev env
        = ({ g with my_serdev := serdev, major_number := env.chrdev_ret,
                    my_class := env.class_ret, my_dev := env.device_ret }, e,
           [.mutex_init, .init_waitqueue_head, .serdev_device_set_client_ops serdev,
            .serdev_device_open serdev 0,
            .serdev_device_set_baudrate serdev 9600 env.baudrate_ret,
            .serdev_device_set_flow_control serdev false,
            .serdev_device_set_parity serdev .SERDEV_PARITY_NONE env.parity_ret,
            .register_chrdev 0 env.chrdev_ret,
            .class_create env.class_ret,
            .device_create env.class_ret (MKDEV env.chrdev_ret 0) env.device_ret,
            .class_destroy env.class_ret,
            .unregister_chrdev env.chrdev_ret,
            .serdev_device_close serdev]) := by
      unfold my_probe
      simp [hopen, hreg', hclass, hdev, IS_ERR_ERR_PTR e he1 he2, PTR_ERR_ERR_PTR e he1 he2]
    rw [hp]
    refine ⟨rfl, rfl, ?_⟩
    simp [Resources.after, Resources.step, Resources.empty, hreg', hclass, hdev,
      IS_ERR_ERR_PTR e he1 he2]

/-- Witness for C10: `register_chrdev` answers `-EBUSY`; `class_create`
answers `ERR_PTR(-ENOMEM)`; `device_create` answers `ERR_PTR(-ENOMEM)`. -/
theorem my_probe_unwinds_witness :
    ((my_probe module_load 1 ⟨0, 9600, 0, -16, 0, 0⟩).2.1 = -16 ∧
      Resources.after .empty (my_probe module_load 1 ⟨0, 9600, 0, -16, 0, 0⟩).2.2 = .empty) ∧
    ((my_probe module_load 1 ⟨0, 9600, 0, 240, ERR_PTR (-12), 0⟩).2.1 = -12 ∧
      Resources.after .empty (my_probe module_load 1 ⟨0, 9600, 0, 240, ERR_PTR (-12), 0⟩).2.2
        = .empty) ∧
    ((my_probe module_load 1 ⟨0, 9600, 0, 240, 4096, ERR_PTR (-12)⟩).2.1 = -12 ∧
      Resources.after .empty (my_probe module_load 1 ⟨0, 9600, 0, 240, 4096, ERR_PTR (-12)⟩).2.2
        = .empty) := by
  have h1 := (my_probe_unwinds module_load 1 ⟨0, 9600, 0, -16, 0, 0⟩ rfl).1 (by decide)
  have h2 := (my_probe_unwinds module_load 1 ⟨0, 9600, 0, 240, ERR_PTR (-12), 0⟩ rfl).2.1
    (by decide) (-12) (by decide) (by decide) rfl
  have h3 := (my_probe_unwinds module_load 1 ⟨0, 9600, 0, 240, 4096, ERR_PTR (-12)⟩ rfl).2.2
    (by decide) (by decide) (-12) (by decide) (by decide) rfl
  exact ⟨⟨h1.1, h1.2.2⟩, ⟨h2.1, h2.2.2⟩, ⟨h3.1, h3.2.2⟩⟩

theorem my_probe_of_success (g : Globals) (serdev : Nat) (env : ProbeEnv)
    (hopen : env.open_ret = 0) (hreg : 0 ≤ env.chrdev_ret)
    (hcls : IS_ERR env.class_ret = false) (hdev : IS_ERR env.device_ret = false) :
    my_probe g serdev env
      = ({ g with my_serdev := serdev, major_number := env.chrdev_ret,
                  my_class := env.class_ret, my_dev := env.device_ret }, 0,
         [.mutex_init, .init_waitqueue_head, .serdev_device_set_client_ops serdev,
          .serdev_device_open serdev 0,
          .serdev_device_set_baudrate serdev 9600 env.baudrate_ret,
          .serdev_device_set_flow_control serdev false,
          .serdev_device_set_parity serdev .SERDEV_PARITY_NONE env.parity_ret,
          .register_chrdev 0 env.chrdev_ret,
          .class_create env.class_ret,
          .device_create env.class_ret (MKDEV env.chrdev_ret 0) env.device_ret]) := by
  have hreg' : ¬ env.chrdev_ret < 0 := by omega
  unfold my_probe
  simp [hopen, hreg', hcls, hdev]

/-- C6, counterexample: the transport opens, the speed set is 0 instead of
9600 and setting the parity answers `-EINVAL`, the other steps succeed.
`my_probe` returns 0, the transport stays open and the registration, the class
and the device node exist. -/
theorem my_probe_config_failure_attaches :
    config_failed ⟨0, 0, -22, 240, 4096, 8192⟩ = true ∧
    (my_probe module_load 1 ⟨0, 0, -22, 240, 4096, 8192⟩).2.1 = 0 ∧
    Resources.after .empty (my_probe module_load 1 ⟨0, 0, -22, 240, 4096, 8192⟩).2.2
      = ⟨some 1, some 240, some 4096, some (4096, MKDEV 240 0), 0⟩ := by
  rw [my_probe_of_success module_load 1 ⟨0, 0, -22, 240, 4096, 8192⟩ rfl (by decide)
    (by decide) (by decide)]
  decide

/-- C6, amended: when the transport opens and `register_chrdev`,
`class_create` and `device_create` succeed, `my_probe` returns 0 whatever
`serdev_device_set_baudrate` and `serdev_device_set_parity` answer, a failure
included: their answers are not looked at.  The transport is left open, it is
never closed, and the registration, the class and the device node exist; the
returned value and the module state are those of the same attach with the
configuration succeeding. -/
theorem my_probe_ignores_config (g : Globals) (serdev : Nat) (env : ProbeEnv)
    (hopen : env.open_ret = 0) (hreg : 0 ≤ env.chrdev_ret)
    (hcls : IS_ERR env.class_ret = false) (hdev : IS_ERR env.device_ret = false) :
    (my_probe g serdev env).2.1 = 0 ∧
    Resources.after .empty (my_probe g serdev env).2.2
      = ⟨some serdev, some env.chrdev_ret, some env.class_ret,
         some (env.class_ret, MKDEV env.chrdev_ret 0), 0⟩ ∧
    Call.serdev_device_close serdev ∉ (my_probe g serdev env).2.2 ∧
    (my_probe g serdev env).2.1
      = (my_probe g serdev { env with baudrate_ret := 9600, parity_ret := 0 }).2.1 ∧
    (my_probe g serdev env).1
      = (my_probe g serdev { env with baudrate_ret := 9600, parity_ret := 0 }).1 := by
  have hreg' : ¬ env.chrdev_ret < 0 := by omega
  rw [my_probe_of_success g serdev env hopen hreg hcls hdev,
    my_probe_of_success g serdev { env with baudrate_ret := 9600, parity_ret := 0 }
      hopen hreg hcls hdev]
  refine ⟨rfl, ?_, ?_, rfl, rfl⟩
  · simp [Resources.after, Resources.step, Resources.empty, hreg', hcls, hdev]
  · simp

/-- Witness for C6 (amended): the speed set is 0 and setting the parity answers
`-EINVAL`. -/
theorem my_probe_ignores_config_witness :
    (my_probe module_load 1 ⟨0, 0, -22, 240, 4096, 8192⟩).2.1 = 0 :=
  (my_probe_ignores_config module_load 1 ⟨0, 0, -22, 240, 4096, 8192⟩ rfl (by decide)
    (by decide) (by decide)).1

theorem my_probe_rx (g : Globals) (serdev : Nat) (env : ProbeEnv) :
    (my_probe g serdev env).1.rx_len = g.rx_len ∧
      (my_probe g serdev env).1.rx_buffer = g.rx_buffer := by
  unfold my_probe
  simp only []
  split
  · exact ⟨rfl, rfl⟩
  · split
    · exact ⟨rfl, rfl⟩
    · split
      · exact ⟨rfl, rfl⟩
      · split <;> exact ⟨rfl, rfl⟩

/-- C7, counterexample: attach, ten bytes arrive, detach, attach again (every
step of both attaches succeeding).  Right after the second attach `rx_len` is
10, and a read returns the ten bytes that arrived before the detach. -/
theorem reattach_keeps_bytes :
    ∃ g2 g5, receive_all (my_probe module_load 1 ⟨0, 9600, 0, 240, 4096, 8192⟩).1
        [[1, 2, 3, 4, 5, 6, 7, 8, 9, 10]] = .ret g2 ∧
      (my_probe (my_remove g2 1).1 1 ⟨0, 9600, 0, 240, 4096, 8192⟩).2.1 = 0 ∧
      (my_probe (my_remove g2 1).1 1 ⟨0, 9600, 0, 240, 4096, 8192⟩).1.rx_len = 10 ∧
      (my_probe (my_remove g2 1).1 1 ⟨0, 9600, 0, 240, 4096, 8192⟩).1.rx_len ≠ 0 ∧
      my_read (my_probe (my_remove g2 1).1 1 ⟨0, 9600, 0, 240, 4096, 8192⟩).1 256 256 false
        = .ret (g5, 10, [1, 2, 3, 4, 5, 6, 7, 8, 9, 10]) := by
  obtain ⟨h0l, h0b⟩ := my_probe_rx module_load 1 ⟨0, 9600, 0, 240, 4096, 8192⟩
  have hb : (my_probe module_load 1 ⟨0, 9600, 0, 240, 4096, 8192⟩).1.rx_buffer.length = 256 := by
    rw [h0b]
    exact List.length_replicate _ _
  have hl : (my_probe module_load 1 ⟨0, 9600, 0, 240, 4096, 8192⟩).1.rx_len = 0 := by
    rw [h0l]
    rfl
  obtain ⟨g2, h1, h2, h3, h4⟩ := receive_all_fits [[1, 2, 3, 4, 5, 6, 7, 8, 9, 10]]
    (my_probe module_load 1 ⟨0, 9600, 0, 240, 4096, 8192⟩).1 (by omega) hb
    (by rw [hl]; decide)
  rw [hl] at h2 h4
  have h2' : g2.rx_len = 10 := by rw [h2]; decide
  obtain ⟨hpl, hpb⟩ := my_probe_rx (my_remove g2 1).1 1 ⟨0, 9600, 0, 240, 4096, 8192⟩
  have hrl : (my_probe (my_remove g2 1).1 1 ⟨0, 9600, 0, 240, 4096, 8192⟩).1.rx_len = 10 := by
    rw [hpl]
    exact h2'
  have hrb : (my_probe (my_remove g2 1).1 1 ⟨0, 9600, 0, 240, 4096, 8192⟩).1.rx_buffer
      = g2.rx_buffer := hpb
  refine ⟨g2, { (my_probe (my_remove g2 1).1 1 ⟨0, 9600, 0, 240, 4096, 8192⟩).1 with
      rx_len := 0 }, h1, ?_, hrl, by omega, ?_⟩
  · rw [my_probe_of_success _ 1 ⟨0, 9600, 0, 240, 4096, 8192⟩ rfl (by decide) (by decide)
      (by decide)]
  · rw [my_read_of_pos _ 256 256 false (by omega) (by omega) (by rw [hrb]; exact h3),
      if_pos (by omega), hrl, hrb]
    rw [h2'] at h4
    have h10 : min 256 10 = 10 := by decide
    rw [h10, h4]
    rfl

/-- C7, amended: `my_probe` and `my_remove` do not touch the receive buffer:
`rx_len` and `rx_buffer` after the call are those before it, whether
`my_probe` succeeds or fails.  So the buffer is empty after an attach when it
was empty before it, as it is when the module is loaded (`rx_len = 0`), and
after attach, arrivals, detach, attach, `rx_len` right after the second attach
is the `rx_len` right before the detach: the bytes that arrived and were not
read. -/
theorem attach_keeps_buffer (g : Globals) (serdev : Nat) (env : ProbeEnv) :
    (my_probe g serdev env).1.rx_len = g.rx_len ∧
    (my_probe g serdev env).1.rx_buffer = g.rx_buffer ∧
    (my_remove g serdev).1 = g ∧
    (my_probe (my_remove g serdev).1 serdev env).1.rx_len = g.rx_len ∧
    (my_probe (my_remove g serdev).1 serdev env).1.rx_buffer = g.rx_buffer ∧
    module_load.rx_len = 0 :=
  ⟨(my_probe_rx g serdev env).1, (my_probe_rx g serdev env).2, rfl,
    (my_probe_rx g serdev env).1, (my_probe_rx g serdev env).2, rfl⟩

end Hc06
